import Mathlib

/-
Shallow embedding of the Staffing-Model repository (three Python source
files: staffing_model.py, staffing_model_excel.py, run_staffing_model.py)
and proofs of the specification claims about it.

Python integers are modelled as ℤ and Python float arithmetic as exact
rational arithmetic over ℚ; `math.ceil(a / b)` becomes `⌈(a : ℚ) / b⌉`.
-/

namespace StaffingModel

/-- Parameters dataclass of src/staffing_model.py: supervision ratios and
fixed staff buffers (defaults 2, 4, 6, 1, 1 in the source). -/
structure Parameters where
  trainee_supervision_ratio : ℤ
  crna_supervision_ratio : ℤ
  crnas_location_buffer : ℤ
  faculty_location_buffer : ℤ
  board_runner_faculty : ℤ

/-- ScenarioInput dataclass of src/staffing_model.py. -/
structure ScenarioInput where
  name : String
  total_rooms : ℤ
  trainees_available : ℤ
  crnas_available : ℤ
  faculty_available : ℤ

/-- ScenarioResult dataclass of src/staffing_model.py. -/
structure ScenarioResult where
  name : String
  total_rooms : ℤ
  crnas_total : ℤ
  crnas_fixed_buffer : ℤ
  crnas_available_for_rooms : ℤ
  faculty_total : ℤ
  faculty_main_or_buffer : ℤ
  faculty_board_runner : ℤ
  faculty_available_for_coverage : ℤ
  rooms_covered_by_trainees : ℤ
  rooms_covered_by_crnas : ℤ
  rooms_covered_by_faculty : ℤ
  faculty_used_for_trainee_supervision : ℤ
  faculty_used_for_crna_supervision : ℤ
  faculty_buffer : ℤ
  max_rooms_coverable : ℤ
  rooms_left_to_cover : ℤ

/-- compute_staffing of src/staffing_model.py (lines 69-148), translated
step by step: fixed-buffer clamps, trainee tier, CRNA tier, ceiling
supervision, solo-faculty tier, derived totals. -/
def compute_staffing (scenario : ScenarioInput) (params : Parameters) : ScenarioResult :=
  let total_rooms := scenario.total_rooms
  let crnas_total := scenario.crnas_available
  let faculty_total := scenario.faculty_available
  let crnas_fixed_buffer := params.crnas_location_buffer
  let faculty_main_or_buffer := params.faculty_location_buffer
  let faculty_board_runner := params.board_runner_faculty
  let crnas_available_for_rooms := max (crnas_total - crnas_fixed_buffer) 0
  let faculty_available_for_coverage :=
    max (faculty_total - faculty_main_or_buffer - faculty_board_runner) 0
  let trainee_rooms := min scenario.trainees_available total_rooms
  let rooms_left := total_rooms - trainee_rooms
  let crna_rooms := min crnas_available_for_rooms rooms_left
  let rooms_left := rooms_left - crna_rooms
  let faculty_for_trainees : ℤ :=
    if trainee_rooms > 0 then
      ⌈(trainee_rooms : ℚ) / (params.trainee_supervision_ratio : ℚ)⌉
    else 0
  let faculty_for_crnas : ℤ :=
    if crna_rooms > 0 then
      ⌈(crna_rooms : ℚ) / (params.crna_supervision_ratio : ℚ)⌉
    else 0
  let faculty_left := faculty_available_for_coverage - (faculty_for_trainees + faculty_for_crnas)
  let faculty_left := max faculty_left 0
  let solo_rooms := min faculty_left rooms_left
  let faculty_left := faculty_left - solo_rooms
  let rooms_left := rooms_left - solo_rooms
  let faculty_buffer := faculty_left
  let max_rooms_coverable := trainee_rooms + crna_rooms + solo_rooms
  let rooms_left_to_cover := total_rooms - max_rooms_coverable
  { name := scenario.name
    total_rooms := total_rooms
    crnas_total := crnas_total
    crnas_fixed_buffer := crnas_fixed_buffer
    crnas_available_for_rooms := crnas_available_for_rooms
    faculty_total := faculty_total
    faculty_main_or_buffer := faculty_main_or_buffer
    faculty_board_runner := faculty_board_runner
    faculty_available_for_coverage := faculty_available_for_coverage
    rooms_covered_by_trainees := trainee_rooms
    rooms_covered_by_crnas := crna_rooms
    rooms_covered_by_faculty := solo_rooms
    faculty_used_for_trainee_supervision := faculty_for_trainees
    faculty_used_for_crna_supervision := faculty_for_crnas
    faculty_buffer := faculty_buffer
    max_rooms_coverable := max_rooms_coverable
    rooms_left_to_cover := rooms_left_to_cover }

end StaffingModel

namespace StaffingModelExcel

/-- Parameters dataclass of src/staffing_model_excel.py: float supervision
ratios and four fixed buffers (defaults 2.0, 3.5, 6, 3, 1, 1 in the source). -/
structure Parameters where
  trainee_supervision_ratio : ℚ
  crna_supervision_ratio : ℚ
  fixed_crnas : ℤ
  fixed_faculty_cardiac : ℤ
  fixed_faculty_main_or : ℤ
  fixed_faculty_nl_or : ℤ

/-- ScenarioInput dataclass of src/staffing_model_excel.py. -/
structure ScenarioInput where
  name : String
  total_rooms : ℤ
  trainees_available : ℤ
  crnas_available : ℤ
  faculty_available : ℤ

/-- ScenarioResult dataclass of src/staffing_model_excel.py. -/
structure ScenarioResult where
  name : String
  total_rooms : ℤ
  trainees_used : ℤ
  crnas_total : ℤ
  crnas_fixed : ℤ
  crnas_available_for_rooms : ℤ
  faculty_total : ℤ
  faculty_fixed_total : ℤ
  faculty_available_for_coverage : ℤ
  faculty_used_for_trainee_supervision : ℤ
  faculty_used_for_crna_supervision : ℤ
  solo_faculty_rooms : ℤ
  crna_demand : ℤ
  crnas_shortage : ℤ
  faculty_buffer : ℤ
  max_rooms_coverable : ℤ
  rooms_left_to_cover : ℤ

/-- compute_staffing of src/staffing_model_excel.py (lines 72-172),
translated step by step: fixed-faculty total, availability clamps, trainee
tier, CRNA tier, ceiling supervision, solo-faculty tier, CRNA
demand/shortage, derived totals. -/
def compute_staffing (scenario : ScenarioInput) (params : Parameters) : ScenarioResult :=
  let fixed_faculty_total :=
    params.fixed_faculty_cardiac + params.fixed_faculty_main_or + params.fixed_faculty_nl_or
  let faculty_available_for_coverage :=
    max (scenario.faculty_available - fixed_faculty_total) 0
  let crnas_available_for_rooms :=
    max (scenario.crnas_available - params.fixed_crnas) 0
  let total_rooms := scenario.total_rooms
  let trainee_rooms := min scenario.trainees_available total_rooms
  let rooms_left := total_rooms - trainee_rooms
  let crna_rooms := min crnas_available_for_rooms rooms_left
  let rooms_left := rooms_left - crna_rooms
  let faculty_for_trainees : ℤ :=
    if trainee_rooms > 0 then
      ⌈(trainee_rooms : ℚ) / params.trainee_supervision_ratio⌉
    else 0
  let faculty_for_crnas : ℤ :=
    if crna_rooms > 0 then
      ⌈(crna_rooms : ℚ) / params.crna_supervision_ratio⌉
    else 0
  let faculty_left := faculty_available_for_coverage - (faculty_for_trainees + faculty_for_crnas)
  let faculty_left := max faculty_left 0
  let solo_faculty_rooms := min faculty_left rooms_left
  let faculty_left := faculty_left - solo_faculty_rooms
  let rooms_left := rooms_left - solo_faculty_rooms
  let crna_demand :=
    max (total_rooms - trainee_rooms - solo_faculty_rooms - params.fixed_crnas) 0
  let crnas_shortage := max (crna_demand - scenario.crnas_available) 0
  let max_rooms_coverable := trainee_rooms + crna_rooms + solo_faculty_rooms
  { name := scenario.name
    total_rooms := total_rooms
    trainees_used := trainee_rooms
    crnas_total := scenario.crnas_available
    crnas_fixed := params.fixed_crnas
    crnas_available_for_rooms := crnas_available_for_rooms
    faculty_total := scenario.faculty_available
    faculty_fixed_total := fixed_faculty_total
    faculty_available_for_coverage := faculty_available_for_coverage
    faculty_used_for_trainee_supervision := faculty_for_trainees
    faculty_used_for_crna_supervision := faculty_for_crnas
    solo_faculty_rooms := solo_faculty_rooms
    crna_demand := crna_demand
    crnas_shortage := crnas_shortage
    faculty_buffer := faculty_left
    max_rooms_coverable := max_rooms_coverable
    rooms_left_to_cover := rooms_left }

end StaffingModelExcel

namespace RunStaffingModel

/-- round_half_up of src/run_staffing_model.py (lines 20-28): floor(x + 0.5).
The empty-string passthrough branch is handled by the Option layer of
`compute_day`, which never applies this to a blank value. -/
def round_half_up (x : ℚ) : ℤ := ⌊x + 0.5⌋

/-- Rounding of a rational to the nearest integer with ties to even, the
rule of Python's builtin round; Python float arithmetic is modelled as
exact rational arithmetic. -/
def round_half_even (x : ℚ) : ℤ :=
  if Int.fract x < 1 / 2 then ⌊x⌋
  else if 1 / 2 < Int.fract x then ⌊x⌋ + 1
  else if ⌊x⌋ % 2 = 0 then ⌊x⌋ else ⌊x⌋ + 1

/-- round_1_decimal of src/run_staffing_model.py (lines 30-33): Python
round(x, 1), i.e. rounding to one decimal place with ties to even. -/
def round_1_decimal (x : ℚ) : ℚ := (round_half_even (10 * x) : ℚ) / 10

/-- One day's raw input column of src/run_staffing_model.py: the four
required fields, `none` when the row is missing or the cell is NaN. -/
structure DayInput where
  total_rooms : Option ℤ
  trainees : Option ℤ
  crnas : Option ℤ
  faculty : Option ℤ

/-- is_empty_day of src/run_staffing_model.py (lines 11-18): a day is empty
when any of the four required fields is missing or non-numeric. -/
def is_empty_day (inp : DayInput) : Bool :=
  inp.total_rooms.isNone || inp.trainees.isNone || inp.crnas.isNone || inp.faculty.isNone

/-- One day's computed record of src/run_staffing_model.py (the `computed[d]`
dict, lines 113-135 and 293-315); every field is an Option, `none` standing
for the blank string written for empty days. Faculty quantities are ℚ since
the script's faculty arithmetic is fractional (float in the source). The
pct_solo field holds the integer percentage (its "%" string suffix is
presentation). -/
structure DayResult where
  nfp : Option ℤ
  no_flex : Option ℤ
  trainee : Option ℤ
  solo : Option ℚ
  crna : Option ℤ
  diff : Option ℤ
  one_to_one : Option ℤ
  one_to_two : Option ℚ
  one_to_three_five : Option ℚ
  supervisory : Option ℚ
  addition_supervisory_faculty : Option ℚ
  faculty_needed : Option ℤ
  final_faculty : Option ℤ
  nl : Option ℤ
  mor : Option ℤ
  pct_solo : Option ℤ
  faculty_sched : Option ℤ
  overage : Option ℤ
  crna_sched : Option ℤ
  crna_demand : Option ℚ
  crna_needed : Option ℚ

/-- Blank record written for an empty day (src/run_staffing_model.py lines
113-135): every field is the empty string, modelled as `none`. -/
def blank_day : DayResult :=
  { nfp := none, no_flex := none, trainee := none, solo := none, crna := none
    diff := none, one_to_one := none, one_to_two := none, one_to_three_five := none
    supervisory := none, addition_supervisory_faculty := none, faculty_needed := none
    final_faculty := none, nl := none, mor := none, pct_solo := none
    faculty_sched := none, overage := none, crna_sched := none
    crna_demand := none, crna_needed := none }

/-- Body of the per-date loop of run_staffing_model (src/run_staffing_model.py
lines 105-315): empty days get the blank record; otherwise the sequential
allocation with fixed constants fixed_crnas = 6, cardiac_faculty = 3,
nl_fac = 5 is performed, float arithmetic modelled over ℚ. -/
def compute_day (inp : DayInput) : DayResult :=
  match inp.total_rooms, inp.trainees, inp.crnas, inp.faculty with
  | some total_rooms, some trainees, some crnas, some faculty =>
    let fixed_crnas : ℤ := 6
    let cardiac_faculty : ℤ := 3
    let nl_fac : ℤ := 5
    let scheduled_flex_crnas := max (crnas - fixed_crnas) 0
    let available_rooms := total_rooms - fixed_crnas - cardiac_faculty
    let available_faculty : ℚ := (faculty : ℚ) - (cardiac_faculty : ℚ)
    let trainee_rooms := min trainees available_rooms
    let raw_trainee_faculty : ℚ := (trainee_rooms : ℚ) / 2 - 1.5
    let faculty_for_trainees := round_1_decimal (min raw_trainee_faculty available_faculty)
    let available_rooms := available_rooms - trainee_rooms
    let available_faculty := available_faculty - faculty_for_trainees
    let crna_rooms := min scheduled_flex_crnas available_rooms
    let raw_crna_faculty : ℚ := (crna_rooms : ℚ) / 3.5
    let faculty_for_crnas := round_1_decimal (min raw_crna_faculty available_faculty)
    let available_rooms := available_rooms - crna_rooms
    let available_faculty := available_faculty - faculty_for_crnas
    let solo_faculty : ℚ := min available_faculty (available_rooms : ℚ)
    let supervisory := (cardiac_faculty : ℚ) + faculty_for_trainees + faculty_for_crnas
    let addition_faculty_supervisory := supervisory + solo_faculty
    let faculty_needed := round_half_up (supervisory + solo_faculty)
    let final_faculty_required := faculty_needed + 2
    let mor_asc_sat := final_faculty_required - nl_fac
    let percent_solo : ℤ :=
      if mor_asc_sat > 0 then round_half_even (solo_faculty / (mor_asc_sat : ℚ) * 100)
      else 0
    let crna_demand : ℚ :=
      (total_rooms : ℚ) - (fixed_crnas : ℚ) - (trainee_rooms : ℚ) - solo_faculty
    let crna_needed := crna_demand - (scheduled_flex_crnas : ℚ)
    { nfp := some total_rooms
      no_flex := some (total_rooms - fixed_crnas)
      trainee := some trainees
      solo := some solo_faculty
      crna := some crna_rooms
      diff := some ((total_rooms - fixed_crnas) - trainees - crna_rooms)
      one_to_one := some cardiac_faculty
      one_to_two := some faculty_for_trainees
      one_to_three_five := some faculty_for_crnas
      supervisory := some supervisory
      addition_supervisory_faculty := some addition_faculty_supervisory
      faculty_needed := some faculty_needed
      final_faculty := some final_faculty_required
      nl := some nl_fac
      mor := some mor_asc_sat
      pct_solo := some percent_solo
      faculty_sched := some faculty
      overage := some (faculty - final_faculty_required)
      crna_sched := some scheduled_flex_crnas
      crna_demand := some crna_demand
      crna_needed := some crna_needed }
  | _, _, _, _ => blank_day

/-- Per-date loop of run_staffing_model over the whole input table: one
computed record per date, dates processed independently in order. -/
def run_model (days : List DayInput) : List DayResult := days.map compute_day

end RunStaffingModel

/-- C1: For every scenario (parameters and integer inputs arbitrary), the
allocation engines never cover more rooms than total_rooms: in
staffing_model.py the three tier fields of the result sum to at most
total_rooms, and in staffing_model_excel.py max_rooms_coverable (the sum of
the three tiers, see C6) is at most total_rooms. -/
theorem coverage_never_exceeds_total_rooms
    (s : StaffingModel.ScenarioInput) (p : StaffingModel.Parameters)
    (s2 : StaffingModelExcel.ScenarioInput) (p2 : StaffingModelExcel.Parameters) :
    (StaffingModel.compute_staffing s p).rooms_covered_by_trainees
        + (StaffingModel.compute_staffing s p).rooms_covered_by_crnas
        + (StaffingModel.compute_staffing s p).rooms_covered_by_faculty ≤ s.total_rooms
      ∧ (StaffingModel.compute_staffing s p).max_rooms_coverable ≤ s.total_rooms
      ∧ (StaffingModelExcel.compute_staffing s2 p2).max_rooms_coverable ≤ s2.total_rooms := by
  refine ⟨?_, ?_, ?_⟩
  · simp only [StaffingModel.compute_staffing]
    omega
  · simp only [StaffingModel.compute_staffing]
    omega
  · simp only [StaffingModelExcel.compute_staffing]
    omega

/-- C4: In both engines, faculty_available_for_coverage and
crnas_available_for_rooms are the buffer subtractions clamped to zero at
the point of computation, hence never negative. -/
theorem buffer_subtractions_floored
    (s : StaffingModel.ScenarioInput) (p : StaffingModel.Parameters)
    (s2 : StaffingModelExcel.ScenarioInput) (p2 : StaffingModelExcel.Parameters) :
    (StaffingModel.compute_staffing s p).faculty_available_for_coverage
        = max (s.faculty_available - (p.faculty_location_buffer + p.board_runner_faculty)) 0
      ∧ (StaffingModel.compute_staffing s p).crnas_available_for_rooms
        = max (s.crnas_available - p.crnas_location_buffer) 0
      ∧ 0 ≤ (StaffingModel.compute_staffing s p).faculty_available_for_coverage
      ∧ 0 ≤ (StaffingModel.compute_staffing s p).crnas_available_for_rooms
      ∧ (StaffingModelExcel.compute_staffing s2 p2).faculty_available_for_coverage
        = max (s2.faculty_available
            - (p2.fixed_faculty_cardiac + p2.fixed_faculty_main_or + p2.fixed_faculty_nl_or)) 0
      ∧ (StaffingModelExcel.compute_staffing s2 p2).crnas_available_for_rooms
        = max (s2.crnas_available - p2.fixed_crnas) 0
      ∧ 0 ≤ (StaffingModelExcel.compute_staffing s2 p2).faculty_available_for_coverage
      ∧ 0 ≤ (StaffingModelExcel.compute_staffing s2 p2).crnas_available_for_rooms := by
  simp only [StaffingModel.compute_staffing, StaffingModelExcel.compute_staffing]
  refine ⟨?_, ?_, ?_, ?_, ?_, ?_, ?_, ?_⟩ <;> first | trivial | omega

/-- C5: In the shortage-reporting engine (staffing_model_excel.py), for
every scenario crna_demand = max(total_rooms - trainee_rooms - solo_rooms -
fixed_crna_buffer, 0) and crnas_shortage = max(crna_demand -
crnas_available, 0); both are non-negative and the shortage is measured
against the full crnas_available count. -/
theorem crna_shortage_formulas
    (s : StaffingModelExcel.ScenarioInput) (p : StaffingModelExcel.Parameters) :
    (StaffingModelExcel.compute_staffing s p).crna_demand
        = max (s.total_rooms - (StaffingModelExcel.compute_staffing s p).trainees_used
            - (StaffingModelExcel.compute_staffing s p).solo_faculty_rooms - p.fixed_crnas) 0
      ∧ (StaffingModelExcel.compute_staffing s p).crnas_shortage
        = max ((StaffingModelExcel.compute_staffing s p).crna_demand - s.crnas_available) 0
      ∧ 0 ≤ (StaffingModelExcel.compute_staffing s p).crna_demand
      ∧ 0 ≤ (StaffingModelExcel.compute_staffing s p).crnas_shortage := by
  simp only [StaffingModelExcel.compute_staffing]
  refine ⟨?_, ?_, ?_, ?_⟩ <;> first | trivial | omega

/-- C6: In both engines, rooms_left_to_cover equals the exact arithmetic
difference total_rooms - max_rooms_coverable (no clamping at the final
step), and max_rooms_coverable equals the sum of the three tiers. -/
theorem rooms_left_equals_exact_difference
    (s : StaffingModel.ScenarioInput) (p : StaffingModel.Parameters)
    (s2 : StaffingModelExcel.ScenarioInput) (p2 : StaffingModelExcel.Parameters) :
    (StaffingModel.compute_staffing s p).rooms_left_to_cover
        = s.total_rooms - (StaffingModel.compute_staffing s p).max_rooms_coverable
      ∧ (StaffingModel.compute_staffing s p).max_rooms_coverable
        = (StaffingModel.compute_staffing s p).rooms_covered_by_trainees
            + (StaffingModel.compute_staffing s p).rooms_covered_by_crnas
            + (StaffingModel.compute_staffing s p).rooms_covered_by_faculty
      ∧ (StaffingModelExcel.compute_staffing s2 p2).rooms_left_to_cover
        = s2.total_rooms - (StaffingModelExcel.compute_staffing s2 p2).max_rooms_coverable
      ∧ (StaffingModelExcel.compute_staffing s2 p2).max_rooms_coverable
        = (StaffingModelExcel.compute_staffing s2 p2).trainees_used
            + min (StaffingModelExcel.compute_staffing s2 p2).crnas_available_for_rooms
                (s2.total_rooms - (StaffingModelExcel.compute_staffing s2 p2).trainees_used)
            + (StaffingModelExcel.compute_staffing s2 p2).solo_faculty_rooms := by
  simp only [StaffingModel.compute_staffing, StaffingModelExcel.compute_staffing]
  refine ⟨?_, ?_, ?_, ?_⟩ <;> first | trivial | omega

/-- C10: In both engines, the reported faculty_buffer is non-negative and
solo rooms plus buffer exactly exhaust the clamped faculty remainder
max(faculty_available_for_coverage - faculty_for_trainees -
faculty_for_crnas, 0): solo assignment draws only on that remainder. -/
theorem faculty_buffer_accounting
    (s : StaffingModel.ScenarioInput) (p : StaffingModel.Parameters)
    (s2 : StaffingModelExcel.ScenarioInput) (p2 : StaffingModelExcel.Parameters) :
    0 ≤ (StaffingModel.compute_staffing s p).faculty_buffer
      ∧ (StaffingModel.compute_staffing s p).rooms_covered_by_faculty
          + (StaffingModel.compute_staffing s p).faculty_buffer
        = max ((StaffingModel.compute_staffing s p).faculty_available_for_coverage
            - (StaffingModel.compute_staffing s p).faculty_used_for_trainee_supervision
            - (StaffingModel.compute_staffing s p).faculty_used_for_crna_supervision) 0
      ∧ 0 ≤ (StaffingModelExcel.compute_staffing s2 p2).faculty_buffer
      ∧ (StaffingModelExcel.compute_staffing s2 p2).solo_faculty_rooms
          + (StaffingModelExcel.compute_staffing s2 p2).faculty_buffer
        = max ((StaffingModelExcel.compute_staffing s2 p2).faculty_available_for_coverage
            - (StaffingModelExcel.compute_staffing s2 p2).faculty_used_for_trainee_supervision
            - (StaffingModelExcel.compute_staffing s2 p2).faculty_used_for_crna_supervision) 0 := by
  simp only [StaffingModel.compute_staffing, StaffingModelExcel.compute_staffing]
  refine ⟨?_, ?_, ?_, ?_⟩ <;> first | trivial | omega

/-- C3: In both engines, the supervisory faculty counts are ceiling
divisions guarded by positivity: faculty_for_trainees =
ceil(trainee_rooms / trainee_supervision_ratio) when trainee_rooms > 0 and
0 otherwise, likewise faculty_for_crnas with the CRNA ratio; and a scenario
with trainees_available = 0 consumes zero supervisory faculty for
trainees. -/
theorem supervision_ceiling_per_tier
    (s : StaffingModel.ScenarioInput) (p : StaffingModel.Parameters)
    (s2 : StaffingModelExcel.ScenarioInput) (p2 : StaffingModelExcel.Parameters) :
    ((StaffingModel.compute_staffing s p).faculty_used_for_trainee_supervision
        = if (StaffingModel.compute_staffing s p).rooms_covered_by_trainees > 0 then
            ⌈((StaffingModel.compute_staffing s p).rooms_covered_by_trainees : ℚ)
              / (p.trainee_supervision_ratio : ℚ)⌉
          else 0)
      ∧ ((StaffingModel.compute_staffing s p).faculty_used_for_crna_supervision
        = if (StaffingModel.compute_staffing s p).rooms_covered_by_crnas > 0 then
            ⌈((StaffingModel.compute_staffing s p).rooms_covered_by_crnas : ℚ)
              / (p.crna_supervision_ratio : ℚ)⌉
          else 0)
      ∧ (s.trainees_available = 0 →
          (StaffingModel.compute_staffing s p).faculty_used_for_trainee_supervision = 0)
      ∧ ((StaffingModelExcel.compute_staffing s2 p2).faculty_used_for_trainee_supervision
        = if (StaffingModelExcel.compute_staffing s2 p2).trainees_used > 0 then
            ⌈((StaffingModelExcel.compute_staffing s2 p2).trainees_used : ℚ)
              / p2.trainee_supervision_ratio⌉
          else 0)
      ∧ ((StaffingModelExcel.compute_staffing s2 p2).faculty_used_for_crna_supervision
        = if min (StaffingModelExcel.compute_staffing s2 p2).crnas_available_for_rooms
              (s2.total_rooms - (StaffingModelExcel.compute_staffing s2 p2).trainees_used) > 0 then
            ⌈(((min (StaffingModelExcel.compute_staffing s2 p2).crnas_available_for_rooms
                (s2.total_rooms - (StaffingModelExcel.compute_staffing s2 p2).trainees_used) : ℤ)) : ℚ)
              / p2.crna_supervision_ratio⌉
          else 0)
      ∧ (s2.trainees_available = 0 →
          (StaffingModelExcel.compute_staffing s2 p2).faculty_used_for_trainee_supervision
            = 0) := by
  refine ⟨?_, ?_, ?_, ?_, ?_, ?_⟩
  · simp only [StaffingModel.compute_staffing]
  · simp only [StaffingModel.compute_staffing]
  · intro h
    simp only [StaffingModel.compute_staffing, h]
    split
    · exfalso; omega
    · rfl
  · simp only [StaffingModelExcel.compute_staffing]
  · simp only [StaffingModelExcel.compute_staffing]
  · intro h
    simp only [StaffingModelExcel.compute_staffing, h]
    split
    · exfalso; omega
    · rfl

/-- C3 witness: with trainees_available = 0 both engines report zero
supervisory faculty for trainees, at concrete inputs. -/
theorem supervision_ceiling_per_tier_witness :
    (StaffingModel.compute_staffing ⟨"d", 10, 0, 7, 9⟩ ⟨2, 4, 6, 1, 1⟩).faculty_used_for_trainee_supervision = 0
      ∧ (StaffingModelExcel.compute_staffing ⟨"d", 10, 0, 7, 9⟩ ⟨2, 3.5, 6, 3, 1, 1⟩).faculty_used_for_trainee_supervision = 0 :=
  ⟨(supervision_ceiling_per_tier ⟨"d", 10, 0, 7, 9⟩ ⟨2, 4, 6, 1, 1⟩
      ⟨"d", 10, 0, 7, 9⟩ ⟨2, 3.5, 6, 3, 1, 1⟩).2.2.1 rfl,
    (supervision_ceiling_per_tier ⟨"d", 10, 0, 7, 9⟩ ⟨2, 4, 6, 1, 1⟩
      ⟨"d", 10, 0, 7, 9⟩ ⟨2, 3.5, 6, 3, 1, 1⟩).2.2.2.2.2 rfl⟩

/-- C7: In the staffing_model_excel.py engine, increasing faculty_available
while holding the parameter set and all other scenario fields fixed never
decreases solo_faculty_rooms or max_rooms_coverable. -/
theorem coverage_monotone_in_faculty
    (s : StaffingModelExcel.ScenarioInput) (p : StaffingModelExcel.Parameters)
    (f2 : ℤ) (h : s.faculty_available ≤ f2) :
    (StaffingModelExcel.compute_staffing s p).solo_faculty_rooms
        ≤ (StaffingModelExcel.compute_staffing { s with faculty_available := f2 } p).solo_faculty_rooms
      ∧ (StaffingModelExcel.compute_staffing s p).max_rooms_coverable
        ≤ (StaffingModelExcel.compute_staffing { s with faculty_available := f2 } p).max_rooms_coverable := by
  refine ⟨?_, ?_⟩ <;>
    · simp only [StaffingModelExcel.compute_staffing]
      omega

/-- C7 witness: the monotonicity theorem applied at a concrete pair of
scenarios differing only in faculty_available (12 against 14). -/
theorem coverage_monotone_in_faculty_witness :
    (StaffingModelExcel.compute_staffing ⟨"d", 20, 4, 10, 12⟩ ⟨2, 3.5, 6, 3, 1, 1⟩).solo_faculty_rooms
        ≤ (StaffingModelExcel.compute_staffing ⟨"d", 20, 4, 10, 14⟩ ⟨2, 3.5, 6, 3, 1, 1⟩).solo_faculty_rooms
      ∧ (StaffingModelExcel.compute_staffing ⟨"d", 20, 4, 10, 12⟩ ⟨2, 3.5, 6, 3, 1, 1⟩).max_rooms_coverable
        ≤ (StaffingModelExcel.compute_staffing ⟨"d", 20, 4, 10, 14⟩ ⟨2, 3.5, 6, 3, 1, 1⟩).max_rooms_coverable :=
  coverage_monotone_in_faculty ⟨"d", 20, 4, 10, 12⟩ ⟨2, 3.5, 6, 3, 1, 1⟩ 14 (by decide)

/-- C2: With parameters trainee_supervision_ratio = 2,
crna_supervision_ratio = 3.5, fixed CRNA buffer 6 and total fixed faculty
buffer 4 (cardiac 2 + main OR 1 + NL OR 1), the staffing_model_excel.py
engine applied to (total_rooms = 20, trainees = 4, crnas = 10,
faculty = 12) returns trainee_rooms = 4, crnas_available_for_rooms = 4,
crna_rooms = 4 (recovered as max_rooms_coverable minus the other two
tiers), faculty_for_trainees = 2, faculty_for_crnas = 2,
faculty_available_for_coverage = 8, solo_rooms = 4, faculty_buffer = 0,
max_rooms_coverable = 12, rooms_left_to_cover = 8. -/
theorem example_scenario_exact_result :
    (StaffingModelExcel.compute_staffing ⟨"example", 20, 4, 10, 12⟩ ⟨2, 3.5, 6, 2, 1, 1⟩).trainees_used = 4
      ∧ (StaffingModelExcel.compute_staffing ⟨"example", 20, 4, 10, 12⟩ ⟨2, 3.5, 6, 2, 1, 1⟩).crnas_available_for_rooms = 4
      ∧ (StaffingModelExcel.compute_staffing ⟨"example", 20, 4, 10, 12⟩ ⟨2, 3.5, 6, 2, 1, 1⟩).max_rooms_coverable
          - (StaffingModelExcel.compute_staffing ⟨"example", 20, 4, 10, 12⟩ ⟨2, 3.5, 6, 2, 1, 1⟩).trainees_used
          - (StaffingModelExcel.compute_staffing ⟨"example", 20, 4, 10, 12⟩ ⟨2, 3.5, 6, 2, 1, 1⟩).solo_faculty_rooms = 4
      ∧ (StaffingModelExcel.compute_staffing ⟨"example", 20, 4, 10, 12⟩ ⟨2, 3.5, 6, 2, 1, 1⟩).faculty_used_for_trainee_supervision = 2
      ∧ (StaffingModelExcel.compute_staffing ⟨"example", 20, 4, 10, 12⟩ ⟨2, 3.5, 6, 2, 1, 1⟩).faculty_used_for_crna_supervision = 2
      ∧ (StaffingModelExcel.compute_staffing ⟨"example", 20, 4, 10, 12⟩ ⟨2, 3.5, 6, 2, 1, 1⟩).faculty_available_for_coverage = 8
      ∧ (StaffingModelExcel.compute_staffing ⟨"example", 20, 4, 10, 12⟩ ⟨2, 3.5, 6, 2, 1, 1⟩).solo_faculty_rooms = 4
      ∧ (StaffingModelExcel.compute_staffing ⟨"example", 20, 4, 10, 12⟩ ⟨2, 3.5, 6, 2, 1, 1⟩).faculty_buffer = 0
      ∧ (StaffingModelExcel.compute_staffing ⟨"example", 20, 4, 10, 12⟩ ⟨2, 3.5, 6, 2, 1, 1⟩).max_rooms_coverable = 12
      ∧ (StaffingModelExcel.compute_staffing ⟨"example", 20, 4, 10, 12⟩ ⟨2, 3.5, 6, 2, 1, 1⟩).rooms_left_to_cover = 8 := by
  have hc : ⌈(8/7 : ℚ)⌉ = (2 : ℤ) := by norm_num [Int.ceil_eq_iff]
  norm_num [StaffingModelExcel.compute_staffing, hc]

/-- C8: A day with any of the four required raw fields missing or
non-numeric yields an entirely blank result record (every field absent,
not zero), and the run over the remaining days is unaffected: the model
maps the other days exactly as it would in any list. -/
theorem empty_day_blank_and_others_unaffected
    (inp : RunStaffingModel.DayInput) (h : RunStaffingModel.is_empty_day inp = true)
    (xs ys : List RunStaffingModel.DayInput) :
    RunStaffingModel.compute_day inp = RunStaffingModel.blank_day
      ∧ RunStaffingModel.run_model (xs ++ inp :: ys)
        = RunStaffingModel.run_model xs
            ++ RunStaffingModel.blank_day :: RunStaffingModel.run_model ys := by
  have hb : RunStaffingModel.compute_day inp = RunStaffingModel.blank_day := by
    rcases inp with ⟨t, tr, c, f⟩
    rcases t with _ | t <;> rcases tr with _ | tr <;> rcases c with _ | c <;>
      rcases f with _ | f <;>
      simp_all [RunStaffingModel.is_empty_day, RunStaffingModel.compute_day]
  exact ⟨hb, by simp [RunStaffingModel.run_model, hb]⟩

/-- C8 witness: a concrete day with total_rooms missing is blank and leaves
the neighbouring days' results untouched. -/
theorem empty_day_blank_and_others_unaffected_witness :
    RunStaffingModel.is_empty_day ⟨none, some 3, some 4, some 5⟩ = true
      ∧ RunStaffingModel.compute_day ⟨none, some 3, some 4, some 5⟩
          = RunStaffingModel.blank_day
      ∧ RunStaffingModel.run_model
            ([⟨some 9, some 0, some 0, some 3⟩] ++ ⟨none, some 3, some 4, some 5⟩ :: [⟨some 20, some 4, some 10, some 12⟩])
          = RunStaffingModel.run_model [⟨some 9, some 0, some 0, some 3⟩]
              ++ RunStaffingModel.blank_day
                :: RunStaffingModel.run_model [⟨some 20, some 4, some 10, some 12⟩] :=
  ⟨rfl,
    (empty_day_blank_and_others_unaffected ⟨none, some 3, some 4, some 5⟩ rfl
      [⟨some 9, some 0, some 0, some 3⟩] [⟨some 20, some 4, some 10, some 12⟩]).1,
    (empty_day_blank_and_others_unaffected ⟨none, some 3, some 4, some 5⟩ rfl
      [⟨some 9, some 0, some 0, some 3⟩] [⟨some 20, some 4, some 10, some 12⟩]).2⟩

/-- C9: For every non-empty day whose MOR/ASC/Sat faculty value (final
faculty required minus NL faculty) is non-positive, the percent-solo field
is 0 rather than the result of dividing by the non-positive denominator;
the division is only evaluated under the positivity guard. -/
theorem percent_solo_zero_when_denominator_nonpositive
    (inp : RunStaffingModel.DayInput) (h : RunStaffingModel.is_empty_day inp = false)
    (m : ℤ) (hm : (RunStaffingModel.compute_day inp).mor = some m) (hle : m ≤ 0) :
    (RunStaffingModel.compute_day inp).pct_solo = some 0 := by
  rcases inp with ⟨t, tr, c, f⟩
  rcases t with _ | t <;> rcases tr with _ | tr <;> rcases c with _ | c <;>
    rcases f with _ | f <;>
    simp only [RunStaffingModel.is_empty_day, Option.isNone_none, Option.isNone_some,
      Bool.true_or, Bool.or_true, Bool.or_false, Bool.false_or] at h
  all_goals try exact absurd h (by decide)
  simp only [RunStaffingModel.compute_day, Option.some.injEq] at hm ⊢
  rw [if_neg]
  omega

/-- C9 witness: on the concrete day (rooms 9, trainees 0, CRNAs 0,
faculty 3) the MOR/ASC/Sat value is -1 and percent-solo is reported as 0. -/
theorem percent_solo_zero_witness :
    RunStaffingModel.is_empty_day ⟨some 9, some 0, some 0, some 3⟩ = false
      ∧ (RunStaffingModel.compute_day ⟨some 9, some 0, some 0, some 3⟩).mor = some (-1)
      ∧ ((-1 : ℤ) ≤ 0)
      ∧ (RunStaffingModel.compute_day ⟨some 9, some 0, some 0, some 3⟩).pct_solo = some 0 :=
  ⟨rfl,
    by norm_num [RunStaffingModel.compute_day, RunStaffingModel.round_1_decimal,
      RunStaffingModel.round_half_even, RunStaffingModel.round_half_up, Int.fract,
      min_def, max_def],
    by decide,
    percent_solo_zero_when_denominator_nonpositive ⟨some 9, some 0, some 0, some 3⟩ rfl (-1)
      (by norm_num [RunStaffingModel.compute_day, RunStaffingModel.round_1_decimal,
        RunStaffingModel.round_half_even, RunStaffingModel.round_half_up, Int.fract,
        min_def, max_def])
      (by decide)⟩
